import Mathlib

/-!
Verification of the flowsense real-time paper-trading pipeline.

Shallow embedding of the core components, translated from the TypeScript
sources:

* `binaryParser` — the Dhan binary packet parser (`src/server/src/utils/binaryParser.ts`)
* `marketDepthMetrics` — the depth-metrics calculator
* `indicators` — EMA and crossover detection (`src/server/src/utils/indicators.ts`)
* `BaseStrategy`, `EMACrossoverStrategy`, `OpeningRangeBreakoutStrategy`
* `CandleAggregator` — tick-to-OHLC aggregation
* `PaperTradingEngine` — signal execution and position closing
* `DhanWebSocketManager` — the disconnection / reconnection logic

Conventions: JavaScript numbers are modelled as `ℚ` (all arithmetic the
verified properties touch is exact decimal/rational arithmetic); byte
buffers are `List ℕ`; fallible parses return `Option`.  IEEE-754 float
fields parsed from the wire (`readFloatLE`) are carried as their raw
32-bit patterns, because no verified property depends on their numeric
decoding — only on whether the read is in bounds.
-/

set_option maxRecDepth 4000

namespace Flowsense

/-! ## Binary packet parser (`binaryParser.ts`) -/

/-- Buffer reads.  `readUInt8(off)` in Node throws when `off` is out of
range; the parser wraps all reads in a try/catch that yields `null`, so
every read is modelled as an `Option` that fails out of bounds. -/
def readUInt8 (buf : List ℕ) (off : ℕ) : Option ℕ := buf.get? off

/-- Little-endian unsigned 16-bit read. -/
def readUInt16LE (buf : List ℕ) (off : ℕ) : Option ℕ :=
  (buf.get? off).bind fun b0 =>
  (buf.get? (off + 1)).map fun b1 =>
  b0 + 256 * b1

/-- Little-endian unsigned 32-bit read. -/
def readUInt32LE (buf : List ℕ) (off : ℕ) : Option ℕ :=
  (buf.get? off).bind fun b0 =>
  (buf.get? (off + 1)).bind fun b1 =>
  (buf.get? (off + 2)).bind fun b2 =>
  (buf.get? (off + 3)).map fun b3 =>
  b0 + 256 * b1 + 65536 * b2 + 16777216 * b3

/-- Little-endian signed 32-bit read (twos complement). -/
def readInt32LE (buf : List ℕ) (off : ℕ) : Option ℤ :=
  (readUInt32LE buf off).map fun u =>
  if u < 2 ^ 31 then (u : ℤ) else (u : ℤ) - 2 ^ 32

/-- Little-endian signed 16-bit read (twos complement). -/
def readInt16LE (buf : List ℕ) (off : ℕ) : Option ℤ :=
  (readUInt16LE buf off).map fun u =>
  if u < 2 ^ 15 then (u : ℤ) else (u : ℤ) - 2 ^ 16

/-- Little-endian 32-bit float read.  The numeric IEEE-754 decoding is
not needed by any verified property, so the raw bit pattern is kept. -/
def readFloatLE (buf : List ℕ) (off : ℕ) : Option ℕ := readUInt32LE buf off

/-- Response header: first 8 bytes of every packet.  The source converts
`securityId` to a decimal string; the numeral is kept here. -/
structure ResponseHeader where
  feedCode : ℕ
  messageLength : ℕ
  exchangeSegment : ℕ
  securityId : ℕ
deriving Repr, DecidableEq

/-- Ticker packet (code 2). -/
structure TickerPacket extends ResponseHeader where
  ltp : ℕ
  ltt : ℤ
deriving Repr, DecidableEq

/-- Quote packet (code 4). -/
structure QuotePacket extends ResponseHeader where
  ltp : ℕ
  ltq : ℤ
  ltt : ℤ
  atp : ℕ
  volume : ℤ
  totalSellQty : ℤ
  totalBuyQty : ℤ
  openPrice : ℕ
  closePrice : ℕ
  high : ℕ
  low : ℕ
deriving Repr, DecidableEq

/-- OI data packet (code 5). -/
structure OIDataPacket extends ResponseHeader where
  openInterest : ℤ
deriving Repr, DecidableEq

/-- Previous close packet (code 6). -/
structure PrevClosePacket extends ResponseHeader where
  prevClose : ℕ
  prevOpenInterest : ℤ
deriving Repr, DecidableEq

/-- One market-depth level of a Full packet.  Quantities and order
counts are parsed as signed integers (`readInt32LE` / `readInt16LE`), so
negative values are representable on the wire. -/
structure MarketDepthLevel where
  bidQty : ℤ
  askQty : ℤ
  bidOrders : ℤ
  askOrders : ℤ
  bidPrice : ℕ
  askPrice : ℕ
deriving Repr, DecidableEq

/-- Full packet (code 8): quote data plus five depth levels. -/
structure FullPacket extends ResponseHeader where
  ltp : ℕ
  ltq : ℤ
  ltt : ℤ
  atp : ℕ
  volume : ℤ
  totalSellQty : ℤ
  totalBuyQty : ℤ
  openInterest : ℤ
  highOI : ℤ
  lowOI : ℤ
  openPrice : ℕ
  closePrice : ℕ
  high : ℕ
  low : ℕ
  marketDepth : List MarketDepthLevel
deriving Repr, DecidableEq

/-- Disconnection packet (code 50). -/
structure DisconnectionPacket extends ResponseHeader where
  reasonCode : ℤ
deriving Repr, DecidableEq

/-- Union of all parsed packet shapes. -/
inductive DhanPacket where
  | ticker : TickerPacket → DhanPacket
  | quote : QuotePacket → DhanPacket
  | oiData : OIDataPacket → DhanPacket
  | prevClose : PrevClosePacket → DhanPacket
  | full : FullPacket → DhanPacket
  | disconnection : DisconnectionPacket → DhanPacket
deriving Repr, DecidableEq

/-- Parse the 8-byte response header. -/
def parseResponseHeader (buf : List ℕ) : Option ResponseHeader :=
  match readUInt8 buf 0 with
  | none => none
  | some feedCode =>
  match readUInt16LE buf 1 with
  | none => none
  | some messageLength =>
  match readUInt8 buf 3 with
  | none => none
  | some exchangeSegment =>
  match readUInt32LE buf 4 with
  | none => none
  | some securityId =>
  some { feedCode, messageLength, exchangeSegment, securityId }

/-- Parse a Ticker packet (code 2). -/
def parseTickerPacket (buf : List ℕ) : Option TickerPacket :=
  match parseResponseHeader buf with
  | none => none
  | some header =>
  match readFloatLE buf 8 with
  | none => none
  | some ltp =>
  match readInt32LE buf 12 with
  | none => none
  | some ltt =>
  some { toResponseHeader := header, ltp, ltt }

/-- Parse a Quote packet (code 4). -/
def parseQuotePacket (buf : List ℕ) : Option QuotePacket :=
  match parseResponseHeader buf with
  | none => none
  | some header =>
  match readFloatLE buf 8 with
  | none => none
  | some ltp =>
  match readInt16LE buf 12 with
  | none => none
  | some ltq =>
  match readInt32LE buf 14 with
  | none => none
  | some ltt =>
  match readFloatLE buf 18 with
  | none => none
  | some atp =>
  match readInt32LE buf 22 with
  | none => none
  | some volume =>
  match readInt32LE buf 26 with
  | none => none
  | some totalSellQty =>
  match readInt32LE buf 30 with
  | none => none
  | some totalBuyQty =>
  match readFloatLE buf 34 with
  | none => none
  | some openPrice =>
  match readFloatLE buf 38 with
  | none => none
  | some closePrice =>
  match readFloatLE buf 42 with
  | none => none
  | some high =>
  match readFloatLE buf 46 with
  | none => none
  | some low =>
  some { toResponseHeader := header, ltp, ltq, ltt, atp, volume,
         totalSellQty, totalBuyQty, openPrice, closePrice, high, low }

/-- Parse an OI data packet (code 5). -/
def parseOIDataPacket (buf : List ℕ) : Option OIDataPacket :=
  match parseResponseHeader buf with
  | none => none
  | some header =>
  match readInt32LE buf 8 with
  | none => none
  | some openInterest =>
  some { toResponseHeader := header, openInterest }

/-- Parse a previous-close packet (code 6). -/
def parsePrevClosePacket (buf : List ℕ) : Option PrevClosePacket :=
  match parseResponseHeader buf with
  | none => none
  | some header =>
  match readFloatLE buf 8 with
  | none => none
  | some prevClose =>
  match readInt32LE buf 12 with
  | none => none
  | some prevOpenInterest =>
  some { toResponseHeader := header, prevClose, prevOpenInterest }

/-- Parse one 20-byte market-depth level at `off`. -/
def parseMarketDepthLevel (buf : List ℕ) (off : ℕ) : Option MarketDepthLevel :=
  match readInt32LE buf off with
  | none => none
  | some bidQty =>
  match readInt32LE buf (off + 4) with
  | none => none
  | some askQty =>
  match readInt16LE buf (off + 8) with
  | none => none
  | some bidOrders =>
  match readInt16LE buf (off + 10) with
  | none => none
  | some askOrders =>
  match readFloatLE buf (off + 12) with
  | none => none
  | some bidPrice =>
  match readFloatLE buf (off + 16) with
  | none => none
  | some askPrice =>
  some { bidQty, askQty, bidOrders, askOrders, bidPrice, askPrice }

/-- Parse a Full packet (code 8): header, price/volume block, then five
depth levels of 20 bytes each starting at byte 62. -/
def parseFullPacket (buf : List ℕ) : Option FullPacket :=
  match parseResponseHeader buf with
  | none => none
  | some header =>
  match readFloatLE buf 8 with
  | none => none
  | some ltp =>
  match readInt16LE buf 12 with
  | none => none
  | some ltq =>
  match readInt32LE buf 14 with
  | none => none
  | some ltt =>
  match readFloatLE buf 18 with
  | none => none
  | some atp =>
  match readInt32LE buf 22 with
  | none => none
  | some volume =>
  match readInt32LE buf 26 with
  | none => none
  | some totalSellQty =>
  match readInt32LE buf 30 with
  | none => none
  | some totalBuyQty =>
  match readInt32LE buf 34 with
  | none => none
  | some openInterest =>
  match readInt32LE buf 38 with
  | none => none
  | some highOI =>
  match readInt32LE buf 42 with
  | none => none
  | some lowOI =>
  match readFloatLE buf 46 with
  | none => none
  | some openPrice =>
  match readFloatLE buf 50 with
  | none => none
  | some closePrice =>
  match readFloatLE buf 54 with
  | none => none
  | some high =>
  match readFloatLE buf 58 with
  | none => none
  | some low =>
  match parseMarketDepthLevel buf 62 with
  | none => none
  | some level0 =>
  match parseMarketDepthLevel buf 82 with
  | none => none
  | some level1 =>
  match parseMarketDepthLevel buf 102 with
  | none => none
  | some level2 =>
  match parseMarketDepthLevel buf 122 with
  | none => none
  | some level3 =>
  match parseMarketDepthLevel buf 142 with
  | none => none
  | some level4 =>
  some { toResponseHeader := header, ltp, ltq, ltt, atp, volume,
         totalSellQty, totalBuyQty, openInterest, highOI, lowOI,
         openPrice, closePrice, high, low,
         marketDepth := [level0, level1, level2, level3, level4] }

/-- Parse a disconnection packet (code 50). -/
def parseDisconnectionPacket (buf : List ℕ) : Option DisconnectionPacket :=
  match parseResponseHeader buf with
  | none => none
  | some header =>
  match readInt16LE buf 8 with
  | none => none
  | some reasonCode =>
  some { toResponseHeader := header, reasonCode }

/-- Main entry: route on the feed code.  Buffers shorter than 8 bytes
and unknown feed codes yield `none`; any out-of-bounds read inside a
branch (the try/catch in the source) also yields `none`. -/
def parseDhanPacket (buf : List ℕ) : Option DhanPacket :=
  if buf.length < 8 then none
  else
    match readUInt8 buf 0 with
    | none => none
    | some feedCode =>
      if feedCode = 2 then (parseTickerPacket buf).map .ticker
      else if feedCode = 4 then (parseQuotePacket buf).map .quote
      else if feedCode = 5 then (parseOIDataPacket buf).map .oiData
      else if feedCode = 6 then (parsePrevClosePacket buf).map .prevClose
      else if feedCode = 8 then (parseFullPacket buf).map .full
      else if feedCode = 50 then (parseDisconnectionPacket buf).map .disconnection
      else none

/-- Feed codes the parser recognizes. -/
def knownFeedCodes : List ℕ := [2, 4, 5, 6, 8, 50]

/-- Minimum frame length each recognized feed code needs: the end of the
highest-offset read its parser performs (e.g. a Full packet reads the
fifth depth level askPrice at bytes 158..161, so it needs 162 bytes). -/
def requiredFrameLength (feedCode : ℕ) : ℕ :=
  if feedCode = 2 then 16
  else if feedCode = 4 then 50
  else if feedCode = 5 then 12
  else if feedCode = 6 then 16
  else if feedCode = 8 then 162
  else if feedCode = 50 then 10
  else 8


/-! ## Depth-metrics calculator (`marketDepthMetrics.ts`) -/

/-- Bid-ask imbalance: total bid quantity over total ask quantity across
the levels, with the sentinel `10` when the ask side sums to zero. -/
def calculateBidAskImbalance (marketDepth : List MarketDepthLevel) : ℚ :=
  let totalBidQty : ℤ := marketDepth.foldl (fun sum level => sum + level.bidQty) 0
  let totalAskQty : ℤ := marketDepth.foldl (fun sum level => sum + level.askQty) 0
  if totalAskQty = 0 then 10 else (totalBidQty : ℚ) / (totalAskQty : ℚ)

/-- Level weights used by the order-book strength (level 1 weighs most). -/
def DEPTH_WEIGHTS : List ℤ := [5, 4, 3, 2, 1]

/-- Weighted order-book strength: weighted bid quantity minus weighted
ask quantity over the first `min 5 (length)` levels (the source loop
runs while `i < marketDepth.length && i < DEPTH_WEIGHTS.length`). -/
def calculateOrderBookStrength (marketDepth : List MarketDepthLevel) : ℤ :=
  let weightedBidQty := (List.zipWith (fun level w => level.bidQty * w) marketDepth DEPTH_WEIGHTS).sum
  let weightedAskQty := (List.zipWith (fun level w => level.askQty * w) marketDepth DEPTH_WEIGHTS).sum
  weightedBidQty - weightedAskQty

/-! ## Feed-client disconnection handling (`DhanWebSocketManager.ts`) -/

/-- The reconnection-relevant part of the manager state. -/
structure WSState where
  isConnected : Bool
  reconnectAttempts : ℕ
  maxReconnectAttempts : ℕ
  subscribedInstruments : List ℕ
deriving Repr, DecidableEq

/-- State right after `connect` succeeds: the open handler sets
`isConnected` and resets `reconnectAttempts` to 0. -/
def wsAfterOpen (s : WSState) : WSState :=
  { s with isConnected := true, reconnectAttempts := 0 }

/-- The `close`-event handler schedules `reconnect()` precisely when
`reconnectAttempts < maxReconnectAttempts`; nothing else is consulted. -/
def closeHandlerReconnects (s : WSState) : Bool :=
  s.reconnectAttempts < s.maxReconnectAttempts

/-- The `disconnect()` method: stops the keepalive, sends the
RequestCode-12 frame, closes the socket and clears the subscriptions. -/
def wsDisconnect (s : WSState) : WSState :=
  { s with isConnected := false, subscribedInstruments := [] }

/-- Handling a code-50 disconnection packet: the reason code is only
translated to a log string (`getDisconnectionReason`) and surfaced in
the `serverDisconnect` event; the manager then calls `disconnect()`,
whose socket close fires the `close` handler, which schedules
`reconnect()` whenever the attempt budget is not exhausted.  The
returned flag records whether an automatic reconnection is initiated. -/
def handleDisconnection (reasonCode : ℤ) (s : WSState) : WSState × Bool :=
  let _ := reasonCode
  let s1 := wsDisconnect s
  (s1, closeHandlerReconnects s1)

/-- Reason codes of the disconnection packet, from
`getDisconnectionReason`: 800 server shutdown, 801 duplicate connection,
802 invalid token, 803 token expired, 804 invalid client id, 805 max
connections exceeded, 806 subscription limit exceeded, 807 invalid
subscription request, 808 client timeout, 809 server error, 810
maintenance mode. -/
def knownDisconnectionCodes : List ℤ :=
  [800, 801, 802, 803, 804, 805, 806, 807, 808, 809, 810]

/-- Modelled from the spec: the auth-class disconnection reasons named
by the claim — invalid token (802), expired token (803), invalid client
(804), duplicate connection (801), and limit exceeded (805, 806). -/
def spec_isAuthClassReason (reasonCode : ℤ) : Bool :=
  reasonCode ∈ [801, 802, 803, 804, 805, 806]


/-! ## Indicator utilities (`indicators.ts`) -/

/-- Exponential moving average: seeded with the SMA of the first
`period` prices, then the standard recursion with multiplier
`2 / (period + 1)`.  Returns `length - period + 1` values, or the empty
list when the input is shorter than `period`. -/
def calculateEMA (prices : List ℚ) (period : ℕ) : List ℚ :=
  if prices.length < period then []
  else
    let multiplier : ℚ := 2 / ((period : ℚ) + 1)
    let firstSMA := (prices.take period).sum / (period : ℚ)
    List.scanl (fun prev p => (p - prev) * multiplier + prev) firstSMA (prices.drop period)

/-- Direction of a detected EMA crossover. -/
inductive Crossover where
  | bullish
  | bearish
deriving Repr, DecidableEq

/-- Crossover detection over the last two aligned samples of the fast
and slow EMA series. -/
def detectEMACrossover (fastEMA slowEMA : List ℚ) : Option Crossover :=
  if fastEMA.length < 2 ∨ slowEMA.length < 2 then none
  else
    match fastEMA.reverse, slowEMA.reverse with
    | currentFast :: prevFast :: _, currentSlow :: prevSlow :: _ =>
      if prevFast ≤ prevSlow ∧ currentFast > currentSlow then some .bullish
      else if prevFast ≥ prevSlow ∧ currentFast < currentSlow then some .bearish
      else none
    | _, _ => none

/-! ## Base strategy (`strategies/BaseStrategy.ts`) -/

/-- Signal side. -/
inductive Side where
  | BUY
  | SELL
deriving Repr, DecidableEq

/-- Depth metrics record consumed by the strategies (the shape produced
per tick and averaged per candle). -/
structure MarketDepthMetrics where
  bidAskImbalance : ℚ
  depthSpread : ℚ
  orderBookStrength : ℚ
  volumeDelta : ℚ
  liquidityScore : ℚ
deriving Repr, DecidableEq

/-- Signal produced by a strategy. -/
structure Signal where
  type : Side
  price : ℚ
  reason : String
  stopLoss : ℚ
  target : ℚ
  quantity : ℚ
  bidAskImbalance : ℚ
  orderBookStrength : ℚ
  liquidityScore : ℚ
deriving Repr, DecidableEq

/-- Shared base-strategy thresholds and risk parameters. -/
def minBidAskImbalanceBuy : ℚ := 1.3

/-- Upper imbalance bound for SELL signals. -/
def maxBidAskImbalanceSell : ℚ := 0.77

/-- Minimum liquidity score required by any signal. -/
def minLiquidityScore : ℚ := 60

/-- Percent of capital risked per trade. -/
def riskPercentage : ℚ := 1

/-- Stop-loss distance in percent of the entry price. -/
def stopLossPercentage : ℚ := 1

/-- Target distance in percent of the entry price. -/
def targetPercentage : ℚ := 3

/-- Trading capital assumed by the base strategy. -/
def totalCapital : ℚ := 20000

/-- Position sizing: risk amount over per-unit stop-loss amount, rounded
down to full lots of 75 with a minimum of one lot.  (In JavaScript a
zero entry price would produce an Infinity quantity; over `ℚ` division
by zero gives 0 and hence one lot — no verified statement evaluates the
function at price 0.) -/
def calculatePositionSize (price : ℚ) : ℚ :=
  let riskAmount := totalCapital * (riskPercentage / 100)
  let stopLossAmountPerUnit := price * (stopLossPercentage / 100)
  let rawQuantity := riskAmount / stopLossAmountPerUnit
  let lotSize : ℚ := 75
  let lots : ℤ := max 1 ⌊rawQuantity / lotSize⌋
  (lots : ℚ) * lotSize

/-- Stop-loss price: 1 percent below entry for BUY, above for SELL. -/
def calculateStopLoss (ty : Side) (price : ℚ) : ℚ :=
  match ty with
  | .BUY => price * (1 - stopLossPercentage / 100)
  | .SELL => price * (1 + stopLossPercentage / 100)

/-- Target price: 3 percent above entry for BUY, below for SELL. -/
def calculateTarget (ty : Side) (price : ℚ) : ℚ :=
  match ty with
  | .BUY => price * (1 + targetPercentage / 100)
  | .SELL => price * (1 - targetPercentage / 100)

/-- Intraday entry window: 09:30 to 15:15 inclusive (both embedded
strategies are intraday; the swing branch of the source returns true
unconditionally and is not needed here). -/
def isTradingAllowed (hours minutes : ℕ) : Bool :=
  let timeInMinutes := hours * 60 + minutes
  9 * 60 + 30 ≤ timeInMinutes ∧ timeInMinutes ≤ 15 * 60 + 15

/-- Shared signal generator with the market-depth filters: imbalance
threshold by side, then minimum liquidity, then order-book-strength sign
alignment, then position sizing. -/
def generateSignal (ty : Side) (price : ℚ) (reason : String)
    (depthMetrics : MarketDepthMetrics) : Option Signal :=
  let imbalanceRejected : Bool :=
    match ty with
    | .BUY => depthMetrics.bidAskImbalance < minBidAskImbalanceBuy
    | .SELL => depthMetrics.bidAskImbalance > maxBidAskImbalanceSell
  if imbalanceRejected then none
  else if depthMetrics.liquidityScore < minLiquidityScore then none
  else if ty = .BUY ∧ depthMetrics.orderBookStrength < 0 then none
  else if ty = .SELL ∧ depthMetrics.orderBookStrength > 0 then none
  else
    let quantity := calculatePositionSize price
    if quantity = 0 then none
    else some { type := ty, price := price, reason := reason,
                stopLoss := calculateStopLoss ty price,
                target := calculateTarget ty price,
                quantity := quantity,
                bidAskImbalance := depthMetrics.bidAskImbalance,
                orderBookStrength := depthMetrics.orderBookStrength,
                liquidityScore := depthMetrics.liquidityScore }

/-! ## EMA crossover strategy (`EMACrossoverStrategy.ts`) -/

/-- Candle as consumed by the strategies: the timestamp is carried as
local hours and minutes (the only parts the strategies read). -/
structure ICandle where
  hours : ℕ
  minutes : ℕ
  openPrice : ℚ
  high : ℚ
  low : ℚ
  close : ℚ
  volume : ℚ
deriving Repr, DecidableEq

/-- Mutable state of the EMA crossover strategy.  The stored
`ema9History` and `ema21History` of the source are recomputed from the
candle history on every call and only read back for display, so they
are not part of the behavioural state. -/
structure EMACrossoverState where
  candleHistory : List ICandle
  tradesPlacedToday : ℕ
deriving Repr, DecidableEq

/-- Fresh EMA-crossover strategy state. -/
def emaInitialState : EMACrossoverState := { candleHistory := [], tradesPlacedToday := 0 }

/-- Daily cap of the EMA crossover strategy. -/
def emaMaxTradesPerDay : ℕ := 3

/-- Volume must be 20 percent above the 10-candle average. -/
def emaVolumeMultiplier : ℚ := 1.2

/-- Fast EMA period. -/
def emaFastPeriod : ℕ := 9

/-- Slow EMA period. -/
def emaSlowPeriod : ℕ := 21

/-- Volume validation: with fewer than 10 stored candles the check is
skipped; otherwise the current volume must reach `1.2 ×` the average of
the last 10 stored candles (the history already includes the current
candle at the call sites). -/
def emaValidateVolume (candleHistory : List ICandle) (candle : ICandle) : Bool :=
  if candleHistory.length < 10 then true
  else
    let recentCandles := candleHistory.drop (candleHistory.length - 10)
    let avgVolume := (recentCandles.map ICandle.volume).sum / (recentCandles.length : ℚ)
    let requiredVolume := avgVolume * emaVolumeMultiplier
    if candle.volume < requiredVolume then false else true

/-- One 5-minute candle-close step of the EMA crossover strategy:
trading-hours check, daily cap, history build-up (21 candles needed, at
most 50 kept), EMA recomputation, crossover detection, volume
validation, then the shared depth-filtered signal generator. -/
def emaOnCandle (st : EMACrossoverState) (candle : ICandle)
    (depthMetrics : MarketDepthMetrics) : EMACrossoverState × Option Signal :=
  if ¬ isTradingAllowed candle.hours candle.minutes then (st, none)
  else if ¬ (st.tradesPlacedToday < emaMaxTradesPerDay) then (st, none)
  else
    let hist0 := st.candleHistory ++ [candle]
    if hist0.length < emaSlowPeriod then ({ st with candleHistory := hist0 }, none)
    else
      let hist := if hist0.length > 50 then hist0.drop 1 else hist0
      let closePrices := hist.map ICandle.close
      let ema9 := calculateEMA closePrices emaFastPeriod
      let ema21 := calculateEMA closePrices emaSlowPeriod
      match detectEMACrossover ema9 ema21 with
      | none => ({ st with candleHistory := hist }, none)
      | some crossover =>
        if ¬ emaValidateVolume hist candle then ({ st with candleHistory := hist }, none)
        else
          let signal :=
            match crossover with
            | .bullish => generateSignal .BUY candle.close "EMA 9 crossed above EMA 21" depthMetrics
            | .bearish => generateSignal .SELL candle.close "EMA 9 crossed below EMA 21" depthMetrics
          match signal with
          | some sg =>
            ({ candleHistory := hist, tradesPlacedToday := st.tradesPlacedToday + 1 }, some sg)
          | none => ({ st with candleHistory := hist }, none)

/-- Feed a list of candle closes (with their averaged depth metrics)
through the EMA crossover strategy, collecting the per-candle result. -/
def runEMA (st : EMACrossoverState) :
    List (ICandle × MarketDepthMetrics) → EMACrossoverState × List (Option Signal)
  | [] => (st, [])
  | (c, m) :: rest =>
    let step := emaOnCandle st c m
    let next := runEMA step.1 rest
    (next.1, step.2 :: next.2)


/-! ## Opening-range breakout strategy (`OpeningRangeBreakoutStrategy.ts`) -/

/-- Mutable state of the ORB strategy. -/
structure ORBState where
  openingRangeHigh : ℚ
  openingRangeLow : ℚ
  openingRangeCaptured : Bool
  openingRangeHeight : ℚ
  recentVolumes : List ℚ
  tradesPlacedToday : ℕ
  hasTradedBullish : Bool
  hasTradedBearish : Bool
deriving Repr, DecidableEq

/-- Fresh ORB strategy state (the daily reset restores it). -/
def orbInitialState : ORBState :=
  { openingRangeHigh := 0, openingRangeLow := 0, openingRangeCaptured := false,
    openingRangeHeight := 0, recentVolumes := [], tradesPlacedToday := 0,
    hasTradedBullish := false, hasTradedBearish := false }

/-- Daily cap of the ORB strategy. -/
def orbMaxTradesPerDay : ℕ := 2

/-- Breakout volume must be 2 times the trailing average. -/
def orbVolumeMultiplier : ℚ := 2

/-- Minimum absolute order-book strength confirming a breakout. -/
def orderBookStrengthThreshold : ℚ := 1000

/-- Opening-range capture step: the source branches on
`openingRangeCaptured` (which stays false until the 09:30 candle), so
during the capture window every candle takes the first branch and
overwrites the stored high/low; the max/min branch is unreachable
before 09:30.  At 09:30 the range is frozen and the height computed. -/
def captureOpeningRange (st : ORBState) (candle : ICandle) : ORBState :=
  let st1 :=
    if ¬ st.openingRangeCaptured then
      { st with openingRangeHigh := candle.high, openingRangeLow := candle.low }
    else
      { st with openingRangeHigh := max st.openingRangeHigh candle.high,
                openingRangeLow := min st.openingRangeLow candle.low }
  if candle.hours = 9 ∧ candle.minutes = 30 then
    { st1 with openingRangeCaptured := true,
               openingRangeHeight := st1.openingRangeHigh - st1.openingRangeLow }
  else st1

/-- ORB volume validation over the trailing volume window. -/
def orbValidateVolume (recentVolumes : List ℚ) (currentVolume : ℚ) : Bool :=
  if recentVolumes.length < 10 then true
  else
    let avgVolume := recentVolumes.sum / (recentVolumes.length : ℚ)
    let requiredVolume := avgVolume * orbVolumeMultiplier
    if currentVolume < requiredVolume then false else true

/-- Order-book strength confirmation: the absolute strength must reach
the threshold and its sign must match the breakout direction. -/
def validateOrderBookStrength (orderBookStrength : ℚ) (direction : Crossover) : Bool :=
  if |orderBookStrength| < orderBookStrengthThreshold then false
  else
    match direction with
    | .bullish => if orderBookStrength < 0 then false else true
    | .bearish => if orderBookStrength > 0 then false else true

/-- ORB custom signal generation: run the shared depth filters via
`generateSignal`, then rebuild the signal with the ORB-specific stop
loss and target. -/
def generateCustomSignal (ty : Side) (price : ℚ) (reason : String)
    (depthMetrics : MarketDepthMetrics) (customStopLoss customTarget : ℚ) : Option Signal :=
  match generateSignal ty price reason depthMetrics with
  | none => none
  | some _ =>
    let quantity := calculatePositionSize price
    if quantity = 0 then none
    else some { type := ty, price := price, reason := reason,
                stopLoss := customStopLoss, target := customTarget,
                quantity := quantity,
                bidAskImbalance := depthMetrics.bidAskImbalance,
                orderBookStrength := depthMetrics.orderBookStrength,
                liquidityScore := depthMetrics.liquidityScore }

/-- Breakout detection after the opening range is frozen. -/
def detectBreakout (st : ORBState) (candle : ICandle)
    (depthMetrics : MarketDepthMetrics) : ORBState × Option Signal :=
  if candle.close > st.openingRangeHigh ∧ ¬ st.hasTradedBullish then
    if ¬ orbValidateVolume st.recentVolumes candle.volume then (st, none)
    else if ¬ validateOrderBookStrength depthMetrics.orderBookStrength .bullish then (st, none)
    else
      match generateCustomSignal .BUY candle.close "Breakout above opening range"
              depthMetrics st.openingRangeLow (candle.close + st.openingRangeHeight * 2) with
      | some sg =>
        ({ st with tradesPlacedToday := st.tradesPlacedToday + 1, hasTradedBullish := true },
         some sg)
      | none => (st, none)
  else if candle.close < st.openingRangeLow ∧ ¬ st.hasTradedBearish then
    if ¬ orbValidateVolume st.recentVolumes candle.volume then (st, none)
    else if ¬ validateOrderBookStrength depthMetrics.orderBookStrength .bearish then (st, none)
    else
      match generateCustomSignal .SELL candle.close "Breakdown below opening range"
              depthMetrics st.openingRangeHigh (candle.close - st.openingRangeHeight * 2) with
      | some sg =>
        ({ st with tradesPlacedToday := st.tradesPlacedToday + 1, hasTradedBearish := true },
         some sg)
      | none => (st, none)
  else (st, none)

/-- One 1-minute candle-close step of the ORB strategy: capture phase
between 09:15 and 09:30 inclusive, then the 09:30–14:00 entry window,
daily cap, trailing-volume bookkeeping and breakout detection. -/
def orbOnCandle (st : ORBState) (candle : ICandle)
    (depthMetrics : MarketDepthMetrics) : ORBState × Option Signal :=
  let timeInMinutes := candle.hours * 60 + candle.minutes
  if 9 * 60 + 15 ≤ timeInMinutes ∧ timeInMinutes ≤ 9 * 60 + 30 then
    (captureOpeningRange st candle, none)
  else if ¬ st.openingRangeCaptured then (st, none)
  else if timeInMinutes < 9 * 60 + 30 ∨ timeInMinutes > 14 * 60 then (st, none)
  else if ¬ (st.tradesPlacedToday < orbMaxTradesPerDay) then (st, none)
  else
    let recentVolumes0 := st.recentVolumes ++ [candle.volume]
    let recentVolumes := if recentVolumes0.length > 20 then recentVolumes0.drop 1 else recentVolumes0
    let st1 := { st with recentVolumes := recentVolumes }
    detectBreakout st1 candle depthMetrics

/-- Feed a list of candle closes through the ORB strategy. -/
def runORB (st : ORBState) :
    List (ICandle × MarketDepthMetrics) → ORBState × List (Option Signal)
  | [] => (st, [])
  | (c, m) :: rest =>
    let step := orbOnCandle st c m
    let next := runORB step.1 rest
    (next.1, step.2 :: next.2)

/-! ## Candle aggregator (`CandleAggregator.ts`) -/

/-- Accumulated per-candle sums used for depth-metric averaging. -/
structure DepthMetricsSum where
  bidAskImbalance : ℚ
  depthSpread : ℚ
  orderBookStrength : ℚ
deriving Repr, DecidableEq

/-- In-memory candle being built (one per `(securityId, interval)` key;
the model follows a single key).  Timestamps are milliseconds since the
epoch. -/
structure BuildingCandle where
  openPrice : ℚ
  high : ℚ
  low : ℚ
  close : ℚ
  volume : ℚ
  timestamp : ℕ
  depthMetricsSum : DepthMetricsSum
  tickCount : ℕ
deriving Repr, DecidableEq

/-- Normalized bar-start timestamp: floor of the tick time to the
interval (the intraday branch; day bars truncate to local midnight and
are not modelled). -/
def getCandleTimestamp (nowMs : ℕ) (intervalMs : ℕ) : ℕ :=
  nowMs / intervalMs * intervalMs

/-- Fresh candle opened by the first tick of its interval. -/
def createNewCandle (openPrice : ℚ) (timestamp : ℕ) : BuildingCandle :=
  { openPrice := openPrice, high := openPrice, low := openPrice, close := openPrice,
    volume := 0, timestamp := timestamp,
    depthMetricsSum := { bidAskImbalance := 0, depthSpread := 0, orderBookStrength := 0 },
    tickCount := 0 }

/-- Fold one tick into the open candle: OHLC update, cumulative session
volume, and depth-metric accumulation. -/
def updateCandle (candle : BuildingCandle) (ltp volume : ℚ)
    (depthMetrics : MarketDepthMetrics) : BuildingCandle :=
  { candle with
      high := max candle.high ltp,
      low := min candle.low ltp,
      close := ltp,
      volume := volume,
      depthMetricsSum :=
        { bidAskImbalance := candle.depthMetricsSum.bidAskImbalance + depthMetrics.bidAskImbalance,
          depthSpread := candle.depthMetricsSum.depthSpread + depthMetrics.depthSpread,
          orderBookStrength := candle.depthMetricsSum.orderBookStrength + depthMetrics.orderBookStrength },
      tickCount := candle.tickCount + 1 }

/-- Averaged depth-metrics record attached to the `candle:close` event:
sums divided by the tick count (neutral defaults when no tick was
folded), with `liquidityScore` and `volumeDelta` emitted as the literal
constants 0 from the source. -/
def closeCandleMetrics (candle : BuildingCandle) : MarketDepthMetrics :=
  { bidAskImbalance :=
      if candle.tickCount > 0 then candle.depthMetricsSum.bidAskImbalance / (candle.tickCount : ℚ) else 1,
    depthSpread :=
      if candle.tickCount > 0 then candle.depthMetricsSum.depthSpread / (candle.tickCount : ℚ) else 0,
    orderBookStrength :=
      if candle.tickCount > 0 then candle.depthMetricsSum.orderBookStrength / (candle.tickCount : ℚ) else 0,
    liquidityScore := 0,
    volumeDelta := 0 }

/-- One enriched tick as consumed by the aggregator. -/
structure AggTick where
  tMs : ℕ
  ltp : ℚ
  volume : ℚ
  depthMetrics : MarketDepthMetrics
deriving Repr, DecidableEq

/-- Process one tick for a fixed `(securityId, interval)` key: close the
open candle when its bar-start differs from the current one, then create
the candle if absent and fold the tick in.  Returns the new open candle
and the emitted `candle:close` event, if any. -/
def processTick (state : Option BuildingCandle) (intervalMs : ℕ) (tick : AggTick) :
    Option BuildingCandle × Option (BuildingCandle × MarketDepthMetrics) :=
  let candleTimestamp := getCandleTimestamp tick.tMs intervalMs
  let closeEvent :=
    match state with
    | some candle =>
      if candle.timestamp ≠ candleTimestamp then some (candle, closeCandleMetrics candle)
      else none
    | none => none
  let candle :=
    match state with
    | some candle => if candle.timestamp ≠ candleTimestamp then createNewCandle tick.ltp candleTimestamp else candle
    | none => createNewCandle tick.ltp candleTimestamp
  (some (updateCandle candle tick.ltp tick.volume tick.depthMetrics), closeEvent)

/-- Run the aggregator over a tick sequence, collecting the emitted
`candle:close` events in order. -/
def runAggregator (state : Option BuildingCandle) (intervalMs : ℕ) :
    List AggTick → Option BuildingCandle × List (BuildingCandle × MarketDepthMetrics)
  | [] => (state, [])
  | tick :: rest =>
    let step := processTick state intervalMs tick
    let next := runAggregator step.1 intervalMs rest
    (next.1, match step.2 with | some ev => ev :: next.2 | none => next.2)


/-! ## Paper trading engine (`PaperTradingEngine.ts`) -/

/-- Portfolio row (`models/Portfolio`). -/
structure Portfolio where
  totalCapital : ℚ
  availableCapital : ℚ
  usedMargin : ℚ
  todayPnL : ℚ
  totalPnL : ℚ
  totalTrades : ℕ
  winningTrades : ℕ
  losingTrades : ℕ
  winRate : ℚ
  maxDailyLoss : ℚ
  currentDailyLoss : ℚ
deriving Repr, DecidableEq

/-- Daily-loss-limit check (`PortfolioSchema.methods.isDailyLossLimitReached`). -/
def isDailyLossLimitReached (p : Portfolio) : Bool :=
  p.currentDailyLoss ≥ p.maxDailyLoss

/-- Default portfolio created on startup: 20000 capital, 600 max daily
loss. -/
def defaultPortfolio : Portfolio :=
  { totalCapital := 20000, availableCapital := 20000, usedMargin := 0,
    todayPnL := 0, totalPnL := 0, totalTrades := 0, winningTrades := 0,
    losingTrades := 0, winRate := 0, maxDailyLoss := 600, currentDailyLoss := 0 }

/-- Position side. -/
inductive PositionSide where
  | LONG
  | SHORT
deriving Repr, DecidableEq

/-- Open paper position. -/
structure PaperPosition where
  securityId : String
  strategyName : String
  side : PositionSide
  quantity : ℚ
  entryPrice : ℚ
  currentPrice : ℚ
  stopLoss : ℚ
  target : ℚ
  unrealizedPnL : ℚ
  realizedPnL : ℚ
deriving Repr, DecidableEq

/-- Persisted signal as the engine receives it (`models/Signal`). -/
structure ISignal where
  strategyName : String
  securityId : String
  type : Side
  price : ℚ
  stopLoss : ℚ
  target : ℚ
  quantity : ℚ
  liquidityScore : ℚ
deriving Repr, DecidableEq

/-- Business rejection reasons issued by `executeSignal`. -/
inductive RejectReason where
  | noPortfolio
  | dailyLossLimit
  | insufficientCapital
deriving Repr, DecidableEq

/-- Outcome of `executeSignal`. -/
inductive ExecOutcome where
  | rejected : RejectReason → ExecOutcome
  | executed
deriving Repr, DecidableEq

/-- Engine state: the (optional) portfolio row and the open-positions
map, modelled as a list. -/
structure EngineState where
  portfolio : Option Portfolio
  openPositions : List PaperPosition
deriving Repr, DecidableEq

/-- Execute a signal.  Checks, in source order: portfolio lookup, daily
loss limit, sufficient capital; then creates the executed order and the
open position at the slippage-adjusted `executionPrice` (the output of
`calculateExecutionPriceWithSlippage`, whose random jitter makes it an
input here), and moves `signal.price × quantity` from available capital
into used margin.  No check against already-open positions occurs. -/
def executeSignal (s : EngineState) (signal : ISignal) (executionPrice : ℚ) :
    EngineState × ExecOutcome :=
  match s.portfolio with
  | none => (s, .rejected .noPortfolio)
  | some portfolio =>
    if isDailyLossLimitReached portfolio then (s, .rejected .dailyLossLimit)
    else
      let requiredCapital := signal.price * signal.quantity
      if portfolio.availableCapital < requiredCapital then (s, .rejected .insufficientCapital)
      else
        let position : PaperPosition :=
          { securityId := signal.securityId, strategyName := signal.strategyName,
            side := match signal.type with | .BUY => .LONG | .SELL => .SHORT,
            quantity := signal.quantity, entryPrice := executionPrice,
            currentPrice := executionPrice, stopLoss := signal.stopLoss,
            target := signal.target, unrealizedPnL := 0, realizedPnL := 0 }
        let portfolio1 :=
          { portfolio with
              availableCapital := portfolio.availableCapital - requiredCapital,
              usedMargin := portfolio.usedMargin + requiredCapital }
        ({ portfolio := some portfolio1, openPositions := position :: s.openPositions },
         .executed)

/-- Close a position at `exitPrice`: realized PnL by side, margin
release at the entry value, PnL accounting, trade statistics and the
daily-loss counter, then removal from the open-positions map. -/
def closePosition (s : EngineState) (position : PaperPosition) (exitPrice : ℚ) : EngineState :=
  let realizedPnL :=
    match position.side with
    | .LONG => (exitPrice - position.entryPrice) * position.quantity
    | .SHORT => (position.entryPrice - exitPrice) * position.quantity
  let portfolio1 :=
    match s.portfolio with
    | none => none
    | some portfolio =>
      let positionValue := position.entryPrice * position.quantity
      let totalTrades1 := portfolio.totalTrades + 1
      some
        { portfolio with
            availableCapital := portfolio.availableCapital + positionValue + realizedPnL,
            usedMargin := portfolio.usedMargin - positionValue,
            totalPnL := portfolio.totalPnL + realizedPnL,
            todayPnL := portfolio.todayPnL + realizedPnL,
            totalTrades := totalTrades1,
            winningTrades := if realizedPnL > 0 then portfolio.winningTrades + 1 else portfolio.winningTrades,
            losingTrades := if realizedPnL > 0 then portfolio.losingTrades else portfolio.losingTrades + 1,
            currentDailyLoss :=
              if realizedPnL > 0 then portfolio.currentDailyLoss
              else portfolio.currentDailyLoss + |realizedPnL|,
            winRate :=
              ((if realizedPnL > 0 then portfolio.winningTrades + 1 else portfolio.winningTrades : ℕ) : ℚ)
                / (totalTrades1 : ℚ) * 100 }
  { portfolio := portfolio1, openPositions := s.openPositions.erase position }

/-- Events driving the engine: a signal execution (with its simulated
fill price) or a position close (stop, target, EOD square-off and manual
closes all reach `closePosition` with some exit price; the index selects
the position in the open-positions map). -/
inductive EngineEvent where
  | onSignal : ISignal → ℚ → EngineEvent
  | onClose : ℕ → ℚ → EngineEvent
deriving Repr, DecidableEq

/-- Run a sequence of engine events. -/
def runEngine (s : EngineState) : List EngineEvent → EngineState
  | [] => s
  | .onSignal signal executionPrice :: rest =>
    runEngine (executeSignal s signal executionPrice).1 rest
  | .onClose idx exitPrice :: rest =>
    match s.openPositions.get? idx with
    | some position => runEngine (closePosition s position exitPrice) rest
    | none => runEngine s rest

/-- The accounting identity of the portfolio, stated over the engine
state (trivial when no portfolio row exists). -/
def accountingOk (s : EngineState) : Prop :=
  match s.portfolio with
  | none => True
  | some p => p.availableCapital + p.usedMargin = p.totalCapital + p.totalPnL


/-! ## Concrete inputs used by the scenario theorems -/

/-- Depth metrics held constant in the C2 scenario: imbalance 1.4,
strength 2000, liquidity 80. -/
def scenarioMetrics : MarketDepthMetrics :=
  { bidAskImbalance := 1.4, depthSpread := 0, orderBookStrength := 2000,
    volumeDelta := 0, liquidityScore := 80 }

/-- Flat 5-minute candle at 10:00 with the given close and volume
(inside the 09:30–15:15 window). -/
def scenarioCandle (close volume : ℚ) : ICandle :=
  { hours := 10, minutes := 0, openPrice := close, high := close, low := close,
    close := close, volume := volume }

/-- Close sequence of the bullish EMA crossover scenario: 100 repeated
21 times, then 101, 102, 103, 104, 105, 107, 110. -/
def emaScenarioCloses : List ℚ :=
  List.replicate 21 100 ++ [101, 102, 103, 104, 105, 107, 110]

/-- Volumes of the scenario: 1000 on every bar, 1600 on the last. -/
def emaScenarioVolumes : List ℚ :=
  List.replicate 27 1000 ++ [1600]

/-- The scenario candle stream fed to the EMA crossover strategy. -/
def emaScenarioInputs : List (ICandle × MarketDepthMetrics) :=
  (emaScenarioCloses.zip emaScenarioVolumes).map fun p =>
    (scenarioCandle p.1 p.2, scenarioMetrics)

/-- Neutral depth metrics (all zero). -/
def neutralMetrics : MarketDepthMetrics :=
  { bidAskImbalance := 0, depthSpread := 0, orderBookStrength := 0,
    volumeDelta := 0, liquidityScore := 0 }

/-- Opening 1-minute candle at 09:15 with high 110 and low 90. -/
def orbCandle0915 : ICandle :=
  { hours := 9, minutes := 15, openPrice := 100, high := 110, low := 90,
    close := 100, volume := 500 }

/-- The 09:30 candle with high 105 and low 95, strictly inside the
earlier candle range. -/
def orbCandle0930 : ICandle :=
  { hours := 9, minutes := 30, openPrice := 100, high := 105, low := 95,
    close := 100, volume := 500 }

/-- Tick at a given millisecond timestamp with fixed price and volume. -/
def aggTickAt (tMs : ℕ) : AggTick :=
  { tMs := tMs, ltp := 100, volume := 1, depthMetrics := neutralMetrics }

/-- Modelled from the spec: the number of interval boundaries crossed by
a (time-ordered) tick timestamp sequence — for each consecutive pair,
the number of interval floors stepped over. -/
def spec_boundariesCrossed (intervalMs : ℕ) : List ℕ → ℕ
  | t1 :: t2 :: rest => (t2 / intervalMs - t1 / intervalMs) + spec_boundariesCrossed intervalMs (t2 :: rest)
  | _ => 0

/-- Number of consecutive tick pairs whose timestamps fall into
different intervals. -/
def countFloorChanges (intervalMs : ℕ) : List ℕ → ℕ
  | t1 :: t2 :: rest =>
    (if t1 / intervalMs = t2 / intervalMs then 0 else 1) + countFloorChanges intervalMs (t2 :: rest)
  | _ => 0

/-- Signal used by the paper-trading scenarios: BUY 75 units at 100. -/
def engineScenarioSignal : ISignal :=
  { strategyName := "EMA Crossover with Depth Filter", securityId := "13",
    type := .BUY, price := 100, stopLoss := 99, target := 103,
    quantity := 75, liquidityScore := 80 }

/-- Engine state at startup: the default portfolio and no open
positions. -/
def engineScenarioStart : EngineState :=
  { portfolio := some defaultPortfolio, openPositions := [] }

/-- Engine state after the scenario signal has executed once. -/
def engineScenarioAfterOne : EngineState :=
  runEngine engineScenarioStart [.onSignal engineScenarioSignal 100]

/-- Manager state of a fresh session: connected, zero reconnection
attempts used, default cap of five. -/
def freshWSState : WSState :=
  { isConnected := true, reconnectAttempts := 0, maxReconnectAttempts := 5,
    subscribedInstruments := [13] }

/-- Full-packet buffer whose first depth level carries bidQty = -1
(bytes FF FF FF FF) and askQty = 1; everything else zero. -/
def negativeBidBuf : List ℕ :=
  [8, 162, 0, 0, 13, 0, 0, 0] ++ List.replicate 54 0 ++
  ([255, 255, 255, 255] ++ [1, 0, 0, 0] ++ List.replicate 12 0) ++ List.replicate 80 0

/-- Full-packet buffer with level-1 bidQty 4 and level-2 askQty 5 (all
other quantities zero): the weighted sums cancel, 5·4 = 4·5. -/
def cancellingDepthBuf : List ℕ :=
  [8, 162, 0, 0, 13, 0, 0, 0] ++ List.replicate 54 0 ++
  ([4, 0, 0, 0] ++ [0, 0, 0, 0] ++ List.replicate 12 0) ++
  ([0, 0, 0, 0] ++ [5, 0, 0, 0] ++ List.replicate 12 0) ++ List.replicate 60 0

/-- Bid-ask imbalance of the depth ladder of a parsed Full packet. -/
def fullPacketImbalance (buf : List ℕ) : Option ℚ :=
  match parseDhanPacket buf with
  | some (.full f) => some (calculateBidAskImbalance f.marketDepth)
  | _ => none

/-- Order-book strength of the depth ladder of a parsed Full packet. -/
def fullPacketStrength (buf : List ℕ) : Option ℤ :=
  match parseDhanPacket buf with
  | some (.full f) => some (calculateOrderBookStrength f.marketDepth)
  | _ => none

/-- Whether every depth level of a parsed Full packet has equal bid and
ask quantity. -/
def fullPacketBalanced (buf : List ℕ) : Option Bool :=
  match parseDhanPacket buf with
  | some (.full f) => some (f.marketDepth.all fun l => l.bidQty == l.askQty)
  | _ => none


/-! ## Parser robustness lemmas -/

lemma readUInt16LE_eq_none (buf : List ℕ) (off : ℕ) (h : buf.length ≤ off + 1) :
    readUInt16LE buf off = none := by
  have h1 : buf.get? (off + 1) = none := List.get?_eq_none.mpr h
  unfold readUInt16LE
  cases h0 : buf.get? off with
  | none => simp [h0]
  | some b0 => simp [h0, h1, h]

lemma readUInt32LE_eq_none (buf : List ℕ) (off : ℕ) (h : buf.length ≤ off + 3) :
    readUInt32LE buf off = none := by
  have h3 : buf.get? (off + 3) = none := List.get?_eq_none.mpr h
  unfold readUInt32LE
  cases h0 : buf.get? off with
  | none => simp [h0]
  | some b0 =>
    cases h1 : buf.get? (off + 1) with
    | none => simp [h0, h1]
    | some b1 =>
      cases h2 : buf.get? (off + 2) with
      | none => simp [h0, h1, h2]
      | some b2 => simp [h0, h1, h2, h3, h]

lemma readInt32LE_eq_none (buf : List ℕ) (off : ℕ) (h : buf.length ≤ off + 3) :
    readInt32LE buf off = none := by
  unfold readInt32LE
  rw [readUInt32LE_eq_none buf off h]
  rfl

lemma readInt16LE_eq_none (buf : List ℕ) (off : ℕ) (h : buf.length ≤ off + 1) :
    readInt16LE buf off = none := by
  unfold readInt16LE
  rw [readUInt16LE_eq_none buf off h]
  rfl

lemma readFloatLE_eq_none (buf : List ℕ) (off : ℕ) (h : buf.length ≤ off + 3) :
    readFloatLE buf off = none :=
  readUInt32LE_eq_none buf off h

lemma parseMarketDepthLevel_eq_none (buf : List ℕ) (off : ℕ) (h : buf.length ≤ off + 19) :
    parseMarketDepthLevel buf off = none := by
  have h5 : readFloatLE buf (off + 16) = none := readFloatLE_eq_none buf _ (by omega)
  unfold parseMarketDepthLevel
  repeat' split
  all_goals try rfl
  all_goals simp_all

lemma parseTickerPacket_eq_none (buf : List ℕ) (h : buf.length < 16) :
    parseTickerPacket buf = none := by
  have h2 : readInt32LE buf 12 = none := readInt32LE_eq_none buf _ (by omega)
  unfold parseTickerPacket
  repeat' split
  all_goals try rfl
  all_goals simp_all

lemma parseQuotePacket_eq_none (buf : List ℕ) (h : buf.length < 50) :
    parseQuotePacket buf = none := by
  have h2 : readFloatLE buf 46 = none := readFloatLE_eq_none buf _ (by omega)
  unfold parseQuotePacket
  repeat' split
  all_goals try rfl
  all_goals simp_all

lemma parseOIDataPacket_eq_none (buf : List ℕ) (h : buf.length < 12) :
    parseOIDataPacket buf = none := by
  have h2 : readInt32LE buf 8 = none := readInt32LE_eq_none buf _ (by omega)
  unfold parseOIDataPacket
  repeat' split
  all_goals try rfl
  all_goals simp_all

lemma parsePrevClosePacket_eq_none (buf : List ℕ) (h : buf.length < 16) :
    parsePrevClosePacket buf = none := by
  have h2 : readInt32LE buf 12 = none := readInt32LE_eq_none buf _ (by omega)
  unfold parsePrevClosePacket
  repeat' split
  all_goals try rfl
  all_goals simp_all

lemma parseDisconnectionPacket_eq_none (buf : List ℕ) (h : buf.length < 10) :
    parseDisconnectionPacket buf = none := by
  have h2 : readInt16LE buf 8 = none := readInt16LE_eq_none buf _ (by omega)
  unfold parseDisconnectionPacket
  repeat' split
  all_goals try rfl
  all_goals simp_all

lemma parseFullPacket_eq_none (buf : List ℕ) (h : buf.length < 162) :
    parseFullPacket buf = none := by
  have h2 : parseMarketDepthLevel buf 142 = none := parseMarketDepthLevel_eq_none buf _ (by omega)
  unfold parseFullPacket
  repeat' split
  all_goals try rfl
  all_goals simp_all


/-- C7: the packet parser is a total function (modelled as returning an
`Option`, mirroring the try/catch in the source): it returns `none` for
every buffer shorter than 8 bytes, for every unknown feed code, and for
every recognized feed code whose frame is shorter than the highest byte
offset its parser reads — malformed frames are dropped, never crash. -/
theorem parseDhanPacket_malformed_returns_none :
    ∀ buf : List ℕ,
      (buf.length < 8 → parseDhanPacket buf = none) ∧
      (∀ code, readUInt8 buf 0 = some code → code ∉ knownFeedCodes →
        parseDhanPacket buf = none) ∧
      (∀ code, readUInt8 buf 0 = some code → buf.length < requiredFrameLength code →
        parseDhanPacket buf = none) := by
  intro buf
  refine ⟨fun h => ?_, fun code hcode hk => ?_, fun code hcode hlen => ?_⟩
  · unfold parseDhanPacket
    rw [if_pos h]
  · unfold parseDhanPacket
    split
    · rfl
    · simp only [hcode]
      simp only [knownFeedCodes, List.mem_cons, List.not_mem_nil, or_false] at hk
      push_neg at hk
      obtain ⟨k2, k4, k5, k6, k8, k50⟩ := hk
      rw [if_neg k2, if_neg k4, if_neg k5, if_neg k6, if_neg k8, if_neg k50]
  · by_cases h8 : buf.length < 8
    · unfold parseDhanPacket
      rw [if_pos h8]
    · unfold parseDhanPacket
      rw [if_neg h8]
      simp only [hcode]
      by_cases k2 : code = 2
      · subst k2
        simp only [requiredFrameLength, if_pos rfl] at hlen
        rw [if_pos rfl, parseTickerPacket_eq_none buf hlen]
        rfl
      · rw [if_neg k2]
        by_cases k4 : code = 4
        · subst k4
          simp only [requiredFrameLength] at hlen
          norm_num at hlen
          rw [if_pos rfl, parseQuotePacket_eq_none buf hlen]
          rfl
        · rw [if_neg k4]
          by_cases k5 : code = 5
          · subst k5
            simp only [requiredFrameLength] at hlen
            norm_num at hlen
            rw [if_pos rfl, parseOIDataPacket_eq_none buf hlen]
            rfl
          · rw [if_neg k5]
            by_cases k6 : code = 6
            · subst k6
              simp only [requiredFrameLength] at hlen
              norm_num at hlen
              rw [if_pos rfl, parsePrevClosePacket_eq_none buf hlen]
              rfl
            · rw [if_neg k6]
              by_cases k8c : code = 8
              · subst k8c
                simp only [requiredFrameLength] at hlen
                norm_num at hlen
                rw [if_pos rfl, parseFullPacket_eq_none buf hlen]
                rfl
              · rw [if_neg k8c]
                by_cases k50 : code = 50
                · subst k50
                  simp only [requiredFrameLength] at hlen
                  norm_num at hlen
                  rw [if_pos rfl, parseDisconnectionPacket_eq_none buf hlen]
                  rfl
                · rw [if_neg k50]

/-- Witness for C7: a 3-byte buffer, an 8-byte frame with the unknown
feed code 99, and a 20-byte code-8 (Full) frame are all dropped. -/
theorem parseDhanPacket_malformed_returns_none_witness :
    parseDhanPacket [1, 2, 3] = none ∧
    parseDhanPacket [99, 0, 0, 0, 13, 0, 0, 0] = none ∧
    parseDhanPacket (8 :: List.replicate 19 0) = none :=
  ⟨(parseDhanPacket_malformed_returns_none [1, 2, 3]).1 (by norm_num),
   (parseDhanPacket_malformed_returns_none [99, 0, 0, 0, 13, 0, 0, 0]).2.1 99
     (by with_unfolding_all rfl) (by norm_num [knownFeedCodes]),
   (parseDhanPacket_malformed_returns_none (8 :: List.replicate 19 0)).2.2 8
     (by with_unfolding_all rfl) (by norm_num [requiredFrameLength])⟩


/-! ## Depth-metric lemmas -/

lemma foldl_add_int_nonneg (f : MarketDepthLevel → ℤ) :
    ∀ (depth : List MarketDepthLevel) (init : ℤ), 0 ≤ init →
      (∀ l ∈ depth, 0 ≤ f l) → 0 ≤ depth.foldl (fun sum l => sum + f l) init := by
  intro depth
  induction depth with
  | nil => intro init hi _; exact hi
  | cons l rest ih =>
    intro init hi hall
    simp only [List.foldl_cons]
    refine ih (init + f l) ?_ (fun x hx => hall x (List.mem_cons_of_mem l hx))
    have := hall l (List.mem_cons_self l rest)
    linarith

lemma zipWith_bid_eq_ask_of_balanced :
    ∀ (depth : List MarketDepthLevel) (ws : List ℤ),
      (∀ l ∈ depth, l.bidQty = l.askQty) →
      List.zipWith (fun level w => level.bidQty * w) depth ws =
        List.zipWith (fun level w => level.askQty * w) depth ws := by
  intro depth
  induction depth with
  | nil => intro ws _; simp
  | cons l rest ih =>
    intro ws h
    cases ws with
    | nil => simp
    | cons w ws =>
      simp only [List.zipWith_cons_cons]
      rw [h l (List.mem_cons_self l rest),
        ih ws (fun x hx => h x (List.mem_cons_of_mem l hx))]

/-- C8 counterexample: a concrete 162-byte Full-packet frame whose first
depth level parses to bidQty = -1 (a legal signed 32-bit read) yields a
negative bid-ask imbalance, refuting the unconditional claim. -/
theorem bidAskImbalance_negative_counterexample :
    fullPacketImbalance negativeBidBuf = some (-1) ∧ ¬ ((0 : ℚ) ≤ -1) :=
  ⟨by with_unfolding_all rfl, by norm_num⟩

/-- C8 (amended): for every depth ladder whose parsed level quantities
are all nonnegative, the bid-ask imbalance is nonnegative (sentinel 10
when the ask side is empty, a ratio of nonnegatives otherwise). -/
theorem bidAskImbalance_nonneg_of_nonneg_qty :
    ∀ depth : List MarketDepthLevel,
      (∀ l ∈ depth, 0 ≤ l.bidQty ∧ 0 ≤ l.askQty) →
      0 ≤ calculateBidAskImbalance depth := by
  intro depth h
  have hb : 0 ≤ depth.foldl (fun sum level => sum + level.bidQty) 0 :=
    foldl_add_int_nonneg _ depth 0 le_rfl (fun l hl => (h l hl).1)
  have ha : 0 ≤ depth.foldl (fun sum level => sum + level.askQty) 0 :=
    foldl_add_int_nonneg _ depth 0 le_rfl (fun l hl => (h l hl).2)
  simp only [calculateBidAskImbalance]
  split
  · norm_num
  · exact div_nonneg (by exact_mod_cast hb) (by exact_mod_cast ha)

/-- Sample single-level ladder with positive quantities. -/
def sampleDepth : List MarketDepthLevel :=
  [{ bidQty := 100, askQty := 200, bidOrders := 1, askOrders := 1, bidPrice := 0, askPrice := 0 }]

/-- Witness for the amended C8 at a concrete ladder. -/
theorem bidAskImbalance_nonneg_of_nonneg_qty_witness :
    0 ≤ calculateBidAskImbalance sampleDepth :=
  bidAskImbalance_nonneg_of_nonneg_qty sampleDepth (by decide)

/-- C9 counterexample: a concrete Full-packet frame with level-1 bid 4
and level-2 ask 5 (weighted sums 5·4 = 4·5 cancel) has order-book
strength 0 although its levels are not bid-ask balanced. -/
theorem orderBookStrength_cancellation_counterexample :
    fullPacketStrength cancellingDepthBuf = some 0 ∧
    fullPacketBalanced cancellingDepthBuf = some false :=
  ⟨by with_unfolding_all rfl, by with_unfolding_all rfl⟩

/-- C9 (amended): if every depth level has equal bid and ask quantity
then the order-book strength is zero; the converse direction fails (see
the counterexample). -/
theorem orderBookStrength_zero_of_balanced :
    ∀ depth : List MarketDepthLevel,
      (∀ l ∈ depth, l.bidQty = l.askQty) →
      calculateOrderBookStrength depth = 0 := by
  intro depth h
  simp only [calculateOrderBookStrength]
  rw [zipWith_bid_eq_ask_of_balanced depth DEPTH_WEIGHTS h, sub_self]

/-- Balanced two-level ladder. -/
def balancedDepth : List MarketDepthLevel :=
  [{ bidQty := 5, askQty := 5, bidOrders := 1, askOrders := 1, bidPrice := 0, askPrice := 0 },
   { bidQty := 7, askQty := 7, bidOrders := 1, askOrders := 1, bidPrice := 0, askPrice := 0 }]

/-- Witness for the amended C9 at a concrete balanced ladder. -/
theorem orderBookStrength_zero_of_balanced_witness :
    calculateOrderBookStrength balancedDepth = 0 :=
  orderBookStrength_zero_of_balanced balancedDepth (by decide)

/-! ## Aggregator counting lemmas -/

/-- Floor-change count relative to the bar of a previous timestamp. -/
def countFloorChangesFrom (intervalMs t : ℕ) : List ℕ → ℕ
  | [] => 0
  | u :: rest =>
    (if t / intervalMs = u / intervalMs then 0 else 1) + countFloorChangesFrom intervalMs u rest

lemma getCandleTimestamp_eq_iff (intervalMs t u : ℕ) :
    getCandleTimestamp t intervalMs = getCandleTimestamp u intervalMs ↔
      t / intervalMs = u / intervalMs := by
  unfold getCandleTimestamp
  rcases Nat.eq_zero_or_pos intervalMs with h | h
  · subst h; simp
  · exact ⟨fun he => Nat.eq_of_mul_eq_mul_right h he, fun he => by rw [he]⟩

lemma runAggregator_some_count (intervalMs : ℕ) :
    ∀ (ticks : List AggTick) (c : BuildingCandle) (t : ℕ),
      c.timestamp = getCandleTimestamp t intervalMs →
      (runAggregator (some c) intervalMs ticks).2.length =
        countFloorChangesFrom intervalMs t (ticks.map AggTick.tMs) := by
  intro ticks
  induction ticks with
  | nil => intro c t _; rfl
  | cons tick rest ih =>
    intro c t hc
    by_cases heq : t / intervalMs = tick.tMs / intervalMs
    · have hts : c.timestamp = getCandleTimestamp tick.tMs intervalMs := by
        rw [hc]; exact (getCandleTimestamp_eq_iff intervalMs t tick.tMs).mpr heq
      simp only [runAggregator, processTick, if_neg (not_not_intro hts), List.map_cons]
      rw [ih (updateCandle c tick.ltp tick.volume tick.depthMetrics) tick.tMs hts]
      simp only [countFloorChangesFrom, if_pos heq]
      omega
    · have hts : c.timestamp ≠ getCandleTimestamp tick.tMs intervalMs := by
        rw [hc]
        exact fun he => heq ((getCandleTimestamp_eq_iff intervalMs t tick.tMs).mp he)
      simp only [runAggregator, processTick, if_pos hts, List.length_cons, List.map_cons]
      rw [ih (updateCandle (createNewCandle tick.ltp (getCandleTimestamp tick.tMs intervalMs))
            tick.ltp tick.volume tick.depthMetrics) tick.tMs rfl]
      simp only [countFloorChangesFrom, if_neg heq]
      omega

lemma countFloorChanges_cons (intervalMs : ℕ) :
    ∀ (rest : List ℕ) (t : ℕ),
      countFloorChanges intervalMs (t :: rest) = countFloorChangesFrom intervalMs t rest := by
  intro rest
  induction rest with
  | nil => intro t; rfl
  | cons u rest ih =>
    intro t
    simp only [countFloorChanges, countFloorChangesFrom, ih u]

/-- C10 counterexample: two ticks five 1-minute intervals apart close a
single candle although five interval boundaries are crossed. -/
theorem closedCandles_vs_boundaries_counterexample :
    (runAggregator none 60000 [aggTickAt 0, aggTickAt 300000]).2.length = 1 ∧
    spec_boundariesCrossed 60000 [(aggTickAt 0).tMs, (aggTickAt 300000).tMs] = 5 :=
  ⟨by with_unfolding_all rfl, by with_unfolding_all rfl⟩

/-- C10 (amended): for every tick sequence and fixed interval, the
number of closed candles equals the number of consecutive tick pairs
whose timestamps fall into different intervals (a gap of several
intervals still closes exactly one candle). -/
theorem closedCandles_eq_floorChanges :
    ∀ (intervalMs : ℕ) (ticks : List AggTick),
      (runAggregator none intervalMs ticks).2.length =
        countFloorChanges intervalMs (ticks.map AggTick.tMs) := by
  intro intervalMs ticks
  cases ticks with
  | nil => rfl
  | cons tick rest =>
    simp only [runAggregator, processTick]
    rw [runAggregator_some_count intervalMs rest _ tick.tMs rfl]
    rw [List.map_cons, countFloorChanges_cons]

/-! ## Disconnection-handling theorems -/

/-- C5 counterexample: after a code-50 packet with the auth-class reason
802 (invalid token) in a fresh session, the client does initiate an
automatic reconnection. -/
theorem auth_disconnect_reconnects_counterexample :
    spec_isAuthClassReason 802 = true ∧
    (handleDisconnection 802 freshWSState).2 = true :=
  ⟨by with_unfolding_all rfl, by with_unfolding_all rfl⟩

/-- C5 (amended): handling a code-50 disconnection never consults the
reason code — the subsequent close event schedules a reconnection
exactly when the attempt budget is not exhausted, for auth-class reasons
like any other. -/
theorem handleDisconnection_ignores_reason :
    ∀ (reasonCode : ℤ) (s : WSState),
      (handleDisconnection reasonCode s).2 =
        decide (s.reconnectAttempts < s.maxReconnectAttempts) :=
  fun _ _ => rfl

/-! ## Strategy scenario theorems -/

/-- C3: feeding the two opening-window candles (09:15 high 110 / low 90,
then 09:30 high 105 / low 95) to the ORB strategy freezes the opening
range at the last candle alone — high 105, low 95, height 10 — instead
of the window maximum 110 and minimum 90: the capture branches on
`openingRangeCaptured`, which is still false for every candle before
09:30, so each candle overwrites the stored high/low. -/
theorem openingRange_freezes_last_candle_only :
    ((runORB orbInitialState [(orbCandle0915, neutralMetrics), (orbCandle0930, neutralMetrics)]).1.openingRangeCaptured = true) ∧
    ((runORB orbInitialState [(orbCandle0915, neutralMetrics), (orbCandle0930, neutralMetrics)]).1.openingRangeHigh = 105) ∧
    ((runORB orbInitialState [(orbCandle0915, neutralMetrics), (orbCandle0930, neutralMetrics)]).1.openingRangeLow = 95) ∧
    ((runORB orbInitialState [(orbCandle0915, neutralMetrics), (orbCandle0930, neutralMetrics)]).1.openingRangeHeight = 10) := by
  refine ⟨?_, ?_, ?_, ?_⟩ <;> with_unfolding_all rfl

/-- C2 counterexample: on the 28-bar scenario stream the last bar yields
no signal at all (the claim expects a BUY with price 110 there). -/
theorem emaScenario_no_signal_on_last_bar :
    (runEMA emaInitialState emaScenarioInputs).2.getLast? = some none := by
  with_unfolding_all rfl

/-- C2 (amended): the EMA crossover strategy returns null on every bar
of the scenario stream, the last included — the only crossover detection
happens on bar 22 (the first rising close once both EMA series have two
samples) and is rejected by the volume filter there. -/
theorem emaScenario_all_bars_null :
    (runEMA emaInitialState emaScenarioInputs).2 = List.replicate 28 none := by
  with_unfolding_all rfl

/-! ## Paper-trading theorems -/

/-- C6 counterexample: executing the same BUY signal twice against the
default portfolio leaves two simultaneously open positions with the same
(strategyName, securityId) — the second signal is not rejected. -/
theorem duplicate_position_opened_counterexample :
    ((runEngine engineScenarioStart
        [.onSignal engineScenarioSignal 100, .onSignal engineScenarioSignal 100]).openPositions.filter
      (fun p => p.strategyName == engineScenarioSignal.strategyName &&
                p.securityId == engineScenarioSignal.securityId)).length = 2 := by
  with_unfolding_all rfl

/-- C6 (amended): `executeSignal` never inspects the open-positions map.
Whenever the portfolio exists, the daily-loss limit is not reached and
the capital suffices, the signal executes and pushes one more open
position — regardless of any already-open position with the same
(strategyName, securityId); the only business rejections are
noPortfolio, dailyLossLimit and insufficientCapital. -/
theorem executeSignal_ignores_open_positions :
    ∀ (s : EngineState) (signal : ISignal) (executionPrice : ℚ) (p : Portfolio),
      s.portfolio = some p →
      isDailyLossLimitReached p = false →
      ¬ (p.availableCapital < signal.price * signal.quantity) →
      (executeSignal s signal executionPrice).2 = .executed ∧
      (executeSignal s signal executionPrice).1.openPositions.length =
        s.openPositions.length + 1 := by
  intro s signal executionPrice p hp hloss hcap
  rcases s with ⟨sp, positions⟩
  cases sp with
  | none => exact absurd hp (by simp)
  | some q =>
    have hq : q = p := by simpa using hp
    subst hq
    simp only [executeSignal, hloss, Bool.false_eq_true, if_false, if_neg hcap]
    exact ⟨by trivial, by simp⟩

/-- Witness for the amended C6: re-executing the scenario signal on the
state that already holds a matching open position succeeds and leaves
two open positions. -/
theorem executeSignal_ignores_open_positions_witness :
    (executeSignal engineScenarioAfterOne engineScenarioSignal 100).2 = .executed ∧
    (executeSignal engineScenarioAfterOne engineScenarioSignal 100).1.openPositions.length =
      engineScenarioAfterOne.openPositions.length + 1 :=
  executeSignal_ignores_open_positions engineScenarioAfterOne engineScenarioSignal 100
    (engineScenarioAfterOne.portfolio.getD defaultPortfolio)
    (by with_unfolding_all rfl) (by with_unfolding_all rfl)
    (of_decide_eq_true (by with_unfolding_all rfl))


/-! ## Liquidity-gate lemmas (C1) -/

lemma generateSignal_low_liquidity (m : MarketDepthMetrics) (hm : m.liquidityScore < 60) :
    ∀ (ty : Side) (price : ℚ) (reason : String), generateSignal ty price reason m = none := by
  intro ty price reason
  simp only [generateSignal]
  split
  · rfl
  · rw [if_pos (show m.liquidityScore < minLiquidityScore from hm)]

lemma generateCustomSignal_low_liquidity (m : MarketDepthMetrics) (hm : m.liquidityScore < 60) :
    ∀ (ty : Side) (price : ℚ) (reason : String) (sl tg : ℚ),
      generateCustomSignal ty price reason m sl tg = none := by
  intro ty price reason sl tg
  simp only [generateCustomSignal, generateSignal_low_liquidity m hm]

lemma emaOnCandle_low_liquidity (st : EMACrossoverState) (c : ICandle)
    (m : MarketDepthMetrics) (hm : m.liquidityScore < 60) :
    (emaOnCandle st c m).2 = none := by
  have hg := generateSignal_low_liquidity m hm
  simp only [emaOnCandle]
  repeat' split
  all_goals try rfl
  all_goals try simp_all
  all_goals (rename_i heqfin; split at heqfin <;> simp_all)

lemma detectBreakout_low_liquidity (st : ORBState) (c : ICandle)
    (m : MarketDepthMetrics) (hm : m.liquidityScore < 60) :
    (detectBreakout st c m).2 = none := by
  have hg := generateCustomSignal_low_liquidity m hm
  simp only [detectBreakout]
  repeat' split
  all_goals try rfl
  all_goals simp_all

lemma orbOnCandle_low_liquidity (st : ORBState) (c : ICandle)
    (m : MarketDepthMetrics) (hm : m.liquidityScore < 60) :
    (orbOnCandle st c m).2 = none := by
  simp only [orbOnCandle]
  repeat' split
  all_goals try rfl
  all_goals exact detectBreakout_low_liquidity _ c m hm

/-- C1: the depth-metrics record attached to every `candle:close` event
carries the literal `liquidityScore = 0`, and the shared signal
generator rejects every request whose metrics have liquidity below 60 —
hence with candle-close metrics neither the EMA crossover strategy nor
the ORB strategy (the strategies dispatched on that path) can ever
return a signal. -/
theorem candleClose_zero_liquidity_blocks_signals :
    ∀ candle : BuildingCandle, (closeCandleMetrics candle).liquidityScore = 0 ∧
      ∀ m : MarketDepthMetrics, m.liquidityScore < 60 →
        (∀ (ty : Side) (price : ℚ) (reason : String), generateSignal ty price reason m = none) ∧
        (∀ (st : EMACrossoverState) (c : ICandle), (emaOnCandle st c m).2 = none) ∧
        (∀ (st : ORBState) (c : ICandle), (orbOnCandle st c m).2 = none) := by
  intro candle
  exact ⟨rfl, fun m hm =>
    ⟨generateSignal_low_liquidity m hm,
     fun st c => emaOnCandle_low_liquidity st c m hm,
     fun st c => orbOnCandle_low_liquidity st c m hm⟩⟩

/-- Witness for C1 at a concrete closed candle and its emitted metrics. -/
theorem candleClose_zero_liquidity_blocks_signals_witness :
    (closeCandleMetrics (createNewCandle 100 0)).liquidityScore = 0 ∧
    (emaOnCandle emaInitialState orbCandle0915 (closeCandleMetrics (createNewCandle 100 0))).2 = none ∧
    (orbOnCandle orbInitialState orbCandle0915 (closeCandleMetrics (createNewCandle 100 0))).2 = none :=
  have hlt : (closeCandleMetrics (createNewCandle 100 0)).liquidityScore < 60 :=
    of_decide_eq_true (by with_unfolding_all rfl)
  ⟨(candleClose_zero_liquidity_blocks_signals (createNewCandle 100 0)).1,
   ((candleClose_zero_liquidity_blocks_signals (createNewCandle 100 0)).2 _ hlt).2.1
     emaInitialState orbCandle0915,
   ((candleClose_zero_liquidity_blocks_signals (createNewCandle 100 0)).2 _ hlt).2.2
     orbInitialState orbCandle0915⟩

/-! ## Accounting-identity lemmas (C4) -/

lemma executeSignal_preserves_accounting (s : EngineState) (signal : ISignal)
    (executionPrice : ℚ) (h : accountingOk s) :
    accountingOk (executeSignal s signal executionPrice).1 := by
  rcases s with ⟨sp, positions⟩
  cases sp with
  | none => exact h
  | some p =>
    simp only [executeSignal]
    split
    · exact h
    · split
      · exact h
      · simp only [accountingOk] at h ⊢
        linarith

lemma closePosition_preserves_accounting (s : EngineState) (position : PaperPosition)
    (exitPrice : ℚ) (h : accountingOk s) :
    accountingOk (closePosition s position exitPrice) := by
  rcases s with ⟨sp, positions⟩
  cases sp with
  | none => exact trivial
  | some p =>
    simp only [closePosition, accountingOk] at h ⊢
    cases hside : position.side <;> simp only [hside] <;> linarith

/-- C4: the accounting identity availableCapital + usedMargin =
totalCapital + totalPnL is preserved by every signal execution (at any
simulated fill price, equal to the signal price or not) and by every
position close, hence holds after every event of every run that starts
from a state satisfying it. -/
theorem accounting_identity_preserved :
    ∀ (events : List EngineEvent) (s : EngineState),
      accountingOk s → accountingOk (runEngine s events) := by
  intro events
  induction events with
  | nil => intro s h; exact h
  | cons ev rest ih =>
    intro s h
    cases ev with
    | onSignal signal price =>
      exact ih _ (executeSignal_preserves_accounting s signal price h)
    | onClose idx price =>
      simp only [runEngine]
      cases hidx : s.openPositions.get? idx with
      | some position =>
        simp only [hidx]
        exact ih _ (closePosition_preserves_accounting s position price h)
      | none =>
        simp only [hidx]
        exact ih _ h

/-- Scenario run for the C4 witness: one execution whose fill price
100.05 differs from the signal price 100, then a close at 99. -/
def accountingScenarioEvents : List EngineEvent :=
  [.onSignal engineScenarioSignal 100.05, .onClose 0 99]

/-- Witness for C4 on the concrete scenario run. -/
theorem accounting_identity_preserved_witness :
    accountingOk engineScenarioStart ∧
    accountingOk (runEngine engineScenarioStart accountingScenarioEvents) :=
  ⟨by with_unfolding_all rfl,
   accounting_identity_preserved accountingScenarioEvents engineScenarioStart
     (by with_unfolding_all rfl)⟩

end Flowsense
